import Mathlib

/-!
Shallow embedding of `lml/plugin.py` (the lml plugin registry).

Python objects are modelled as follows: descriptors (`PluginInfo`) live in a
store (`List PluginInfo`) and are referred to by their index, so that the
in-place mutation of a shared descriptor (`a_plugin_info.cls = cls` in
`dynamic_load_library`) is visible through every registry list holding it.
A raised Python exception is modelled as an `Except.error` carrying the
exception class name and message; the raising function also returns the
current store, since heap mutations performed before a `raise` persist.
The class loader `do_import_class` (from `lml.utils`, an external
collaborator per the spec) is a parameter `loader : String → Handle`.
Python dictionaries (`registry`, `PLUG_IN_MANAGERS`, `CACHED_PLUGIN_INFO`)
are modelled as insertion-ordered association lists, `defaultdict` reads
included.  String lowering models Python `str.lower` on ASCII tags.
-/

/-- Result of `do_import_class`: a loaded class, with its `__module__`. -/
structure Handle where
  module : String
  name : String
deriving DecidableEq

/-- A raised Python exception: its class name and its message.  The source
raises `Exception(...)` in both failure paths of `load_me_now`. -/
structure PyError where
  cls : String
  msg : String
deriving DecidableEq

/-- Decidable equality for `Except`, needed to evaluate results of the
embedded operations on concrete inputs. -/
instance exceptDecEq {ε α : Type _} [DecidableEq ε] [DecidableEq α] :
    DecidableEq (Except ε α) := fun x y =>
  match x, y with
  | Except.ok a, Except.ok b =>
      if h : a = b then isTrue (by rw [h]) else isFalse (by intro hc; cases hc; exact h rfl)
  | Except.error a, Except.error b =>
      if h : a = b then isTrue (by rw [h]) else isFalse (by intro hc; cases hc; exact h rfl)
  | Except.ok _, Except.error _ => isFalse (by intro hc; cases hc)
  | Except.error _, Except.ok _ => isFalse (by intro hc; cases hc)

/-- Embedding of `PluginInfo.__init__`: `plugin_type`, `absolute_import_path`
(the `abs_class_path` argument), `cls` (starts `None`), the private `__tags`
argument (here `tags0`, `none` when not supplied), and `properties`. -/
structure PluginInfo where
  plugin_type : String
  absolute_import_path : Option String
  cls : Option Handle
  tags0 : Option (List String)
  properties : List (String × String)
deriving DecidableEq

/-- Placeholder descriptor used for out-of-range store reads. -/
def dummyInfo : PluginInfo :=
  { plugin_type := "", absolute_import_path := none, cls := none,
    tags0 := none, properties := [] }

/-- Embedding of `PluginInfo.tags`: yield `plugin_type` when `__tags is None`,
otherwise yield each of the supplied tags (an explicitly empty sequence
yields nothing). -/
def PluginInfo.tags (p : PluginInfo) : List String :=
  match p.tags0 with
  | none => [p.plugin_type]
  | some ts => ts

/-- Model of Python `str.lower()` for the ASCII tags used by the registry. -/
def toLowerStr (s : String) : String :=
  String.mk (s.data.map Char.toLower)

/-- Characters of `module_name` before the first dot: `module_name.split('.')[0]`. -/
def headSegment : List Char → List Char
  | [] => []
  | ch :: rest => if ch == '.' then [] else ch :: headSegment rest

/-- Embedding of `_get_me_pypi_package_name`: take the top-level segment of
the module path and replace each underscore with a hyphen. -/
def _get_me_pypi_package_name (module_name : String) : String :=
  String.mk ((headSegment module_name.data).map (fun ch => if ch == '_' then '-' else ch))

/-- Rendering of the `library` argument by `"%s" % library` (Python prints
`None` for an absent value). -/
def libStr : Option String → String
  | none => "None"
  | some s => s

/-- Python truthiness of the `library` argument (`if library and ...`):
`None` and the empty string are falsy. -/
def truthy : Option String → Bool
  | none => false
  | some s => !(s == "")

/-- Lookup in an insertion-ordered association list (a Python dict read). -/
def assocLookup {α : Type _} : List (String × α) → String → Option α
  | [], _ => none
  | (k', v) :: rest, k => if k' == k then some v else assocLookup rest k

/-- Write `d[k] = v` on a Python dict: overwrite in place, or append a new key. -/
def assocSet {α : Type _} : List (String × α) → String → α → List (String × α)
  | [], k, v => [(k, v)]
  | (k', v') :: rest, k, v =>
      if k' == k then (k, v) :: rest else (k', v') :: assocSet rest k v

/-- Delete `d[k]` on a Python dict. -/
def assocErase {α : Type _} (r : List (String × α)) (k : String) : List (String × α) :=
  r.filter (fun p => !(p.1 == k))

/-- Model of `defaultdict(list)[k].append(i)`: extend the existing list in
place, or create the key (at the end, insertion-ordered) with `[i]`. -/
def assocAppend : List (String × List Nat) → String → Nat → List (String × List Nat)
  | [], k, i => [(k, [i])]
  | (k', l) :: rest, k, i =>
      if k' == k then (k', l ++ [i]) :: rest else (k', l) :: assocAppend rest k i

/-- Membership test `k in d` on a `defaultdict` (does not create the key). -/
def dd_contains (r : List (String × List Nat)) (k : String) : Bool :=
  (assocLookup r k).isSome

/-- Read `d[k]` on a `defaultdict(list)`: returns the stored list, creating
the key with an empty list when it is absent. -/
def dd_getitem (r : List (String × List Nat)) (k : String) :
    List Nat × List (String × List Nat) :=
  match assocLookup r k with
  | some l => (l, r)
  | none => ([], r ++ [(k, [])])

/-- Embedding of `PluginManager` state: `plugin_name` and the
`registry` (tag → list of descriptor ids, a `defaultdict(list)`). -/
structure Manager where
  plugin_name : String
  registry : List (String × List Nat)
deriving DecidableEq

/-- Result of `dynamic_load_library`: the returned class, the descriptor
store after the call, and the number of `do_import_class` invocations. -/
structure DynResult where
  cls : Handle
  descs : List PluginInfo
  loads : Nat
deriving DecidableEq

/-- Embedding of `PluginManager.dynamic_load_library`: when the descriptor's
`cls` is `None`, call the class loader on its `absolute_import_path` and
cache the result onto the descriptor; otherwise return the cached class.
A `None` import path is passed to the loader as the empty string (the
source would hand `None` to `do_import_class`; such a descriptor is invalid
per the spec and appears in no claim). -/
def dynamic_load_library (loader : String → Handle) (descs : List PluginInfo)
    (i : Nat) : DynResult :=
  let p := descs.getD i dummyInfo
  match p.cls with
  | some c => { cls := c, descs := descs, loads := 0 }
  | none =>
      let c := loader (p.absolute_import_path.getD "")
      { cls := c, descs := descs.set i { p with cls := some c }, loads := 1 }

/-- Result of `load_me_now` / `raise_exception`: the returned class or the
raised exception, the manager, the store, and the loader-invocation count. -/
structure LoadResult where
  result : Except PyError Handle
  manager : Manager
  descs : List PluginInfo
  loads : Nat
deriving DecidableEq

/-- Exception value built by `PluginManager.raise_exception`. -/
def raise_exception_err (plugin_name key : String) : PyError :=
  { cls := "Exception", msg := "No " ++ plugin_name ++ " is found for " ++ key }

/-- Exception value built by the `for/else` branch of `load_me_now`
(`"%s is not installed" % library`). -/
def not_installed_err (library : Option String) : PyError :=
  { cls := "Exception", msg := libStr library ++ " is not installed" }

/-- Result of the scanning loop of `load_me_now`. -/
structure ScanResult where
  result : Except PyError Handle
  descs : List PluginInfo
  loads : Nat
deriving DecidableEq

/-- Embedding of the `for plugin_info in self.registry[__key]` loop of
`load_me_now`: resolve each descriptor, compute its pypi package name, and
`continue` exactly when `library` is truthy and the name differs; the
`for/else` clause raises the not-installed exception. -/
def load_me_now_loop (loader : String → Handle) (library : Option String) :
    List Nat → List PluginInfo → Nat → ScanResult
  | [], descs, n =>
      { result := Except.error (not_installed_err library), descs := descs, loads := n }
  | i :: rest, descs, n =>
      let d := dynamic_load_library loader descs i
      let module_name := _get_me_pypi_package_name d.cls.module
      if truthy library && (module_name != libStr library) then
        load_me_now_loop loader library rest d.descs (n + d.loads)
      else
        { result := Except.ok d.cls, descs := d.descs, loads := n + d.loads }

/-- Embedding of `PluginManager.load_me_now`: lower the key; when it is in
the registry, run the scanning loop on its descriptor list, otherwise
`raise_exception(key)`. -/
def load_me_now (loader : String → Handle) (mgr : Manager) (descs : List PluginInfo)
    (key : String) (library : Option String) : LoadResult :=
  let k := toLowerStr key
  if dd_contains mgr.registry k then
    let p := dd_getitem mgr.registry k
    let s := load_me_now_loop loader library p.1 descs 0
    { result := s.result, manager := { mgr with registry := p.2 },
      descs := s.descs, loads := s.loads }
  else
    { result := Except.error (raise_exception_err mgr.plugin_name key),
      manager := mgr, descs := descs, loads := 0 }

/-- An instance built by calling a resolved class: the class and the keyword
arguments the call site passed to the constructor. -/
structure Instance where
  cls : Handle
  args : List (String × String)
deriving DecidableEq

/-- Result of `get_a_plugin`. -/
structure GetResult where
  result : Except PyError Instance
  manager : Manager
  descs : List PluginInfo
  loads : Nat
deriving DecidableEq

/-- Embedding of `PluginManager.get_a_plugin`: `load_me_now(key)` then
`return plugin()` — the `**keywords` argument is accepted but not passed on,
so the constructor is called with no arguments. -/
def get_a_plugin (loader : String → Handle) (mgr : Manager) (descs : List PluginInfo)
    (key : String) (keywords : List (String × String)) : GetResult :=
  let r := load_me_now loader mgr descs key none
  match r.result with
  | Except.ok plugin =>
      { result := Except.ok { cls := plugin, args := [] },
        manager := r.manager, descs := r.descs, loads := r.loads }
  | Except.error e =>
      { result := Except.error e, manager := r.manager, descs := r.descs, loads := r.loads }

/-- Claim C1's reading of `getInstance` (from the spec's words, for the
refinement comparison): resolve, then construct the instance forwarding
`constructionArgs` to the constructor. -/
def get_a_plugin_claimed (loader : String → Handle) (mgr : Manager)
    (descs : List PluginInfo) (key : String) (keywords : List (String × String)) :
    GetResult :=
  let r := load_me_now loader mgr descs key none
  match r.result with
  | Except.ok plugin =>
      { result := Except.ok { cls := plugin, args := keywords },
        manager := r.manager, descs := r.descs, loads := r.loads }
  | Except.error e =>
      { result := Except.error e, manager := r.manager, descs := r.descs, loads := r.loads }

/-- Embedding of `PluginManager.load_me_later`: append the descriptor (id `i`
in the store) to `registry[key.lower()]` for every key in its `tags()`. -/
def load_me_later (mgr : Manager) (descs : List PluginInfo) (i : Nat) : Manager :=
  { mgr with
    registry :=
      (PluginInfo.tags (descs.getD i dummyInfo)).foldl
        (fun r t => assocAppend r (toLowerStr t) i) mgr.registry }

/-- Embedding of the module-level globals: `PLUG_IN_MANAGERS` and
`CACHED_PLUGIN_INFO` (descriptor ids, a `defaultdict(list)`). -/
structure Directory where
  PLUG_IN_MANAGERS : List (String × Manager)
  CACHED_PLUGIN_INFO : List (String × List Nat)
deriving DecidableEq

/-- Embedding of `_register_class`: store the manager under its
`plugin_name`; when cached descriptors exist for that name, feed each to
`load_me_later` in order and delete the cache entry.  The manager object in
the map is the drained one, since Python mutates it in place after the
insertion. -/
def _register_class (dir : Directory) (descs : List PluginInfo) (mgr : Manager) :
    Directory × Manager :=
  match assocLookup dir.CACHED_PLUGIN_INFO mgr.plugin_name with
  | some ids =>
      let mgr' := ids.foldl (fun m i => load_me_later m descs i) mgr
      ({ PLUG_IN_MANAGERS := assocSet dir.PLUG_IN_MANAGERS mgr.plugin_name mgr',
         CACHED_PLUGIN_INFO := assocErase dir.CACHED_PLUGIN_INFO mgr.plugin_name },
       mgr')
  | none =>
      ({ dir with PLUG_IN_MANAGERS := assocSet dir.PLUG_IN_MANAGERS mgr.plugin_name mgr },
       mgr)

/-- Embedding of `PluginManager.__init__(plugin_type)`: build a manager with
an empty registry and run `_register_class` on it. -/
def PluginManager_init (dir : Directory) (descs : List PluginInfo) (plugin_type : String) :
    Directory × Manager :=
  _register_class dir descs { plugin_name := plugin_type, registry := [] }

/-- Embedding of module-level `_load_me_later`: route the descriptor to its
manager's `load_me_later` when the manager exists, otherwise append it to
`CACHED_PLUGIN_INFO[plugin_type]`. -/
def _load_me_later (dir : Directory) (descs : List PluginInfo) (i : Nat) : Directory :=
  let info := descs.getD i dummyInfo
  match assocLookup dir.PLUG_IN_MANAGERS info.plugin_type with
  | some manager =>
      { dir with
        PLUG_IN_MANAGERS :=
          assocSet dir.PLUG_IN_MANAGERS info.plugin_type (load_me_later manager descs i) }
  | none =>
      { dir with
        CACHED_PLUGIN_INFO := assocAppend dir.CACHED_PLUGIN_INFO info.plugin_type i }

/-- The handle a descriptor resolves to, read off the current store: the
cached class when set, otherwise the loader's answer for its import path. -/
def resolvedOf (loader : String → Handle) (descs : List PluginInfo) (i : Nat) : Handle :=
  match (descs.getD i dummyInfo).cls with
  | some c => c
  | none => loader ((descs.getD i dummyInfo).absolute_import_path.getD "")

/-- The pypi package name of the handle descriptor `i` resolves to. -/
def pkgOf (loader : String → Handle) (descs : List PluginInfo) (i : Nat) : String :=
  _get_me_pypi_package_name (resolvedOf loader descs i).module

/-- Store after caching the resolved handle onto descriptor `i`. -/
def cacheOne (loader : String → Handle) (descs : List PluginInfo) (i : Nat) :
    List PluginInfo :=
  descs.set i { descs.getD i dummyInfo with cls := some (resolvedOf loader descs i) }

/-- Store after caching resolved handles onto the listed descriptors in order. -/
def cacheList (loader : String → Handle) (descs : List PluginInfo) (ids : List Nat) :
    List PluginInfo :=
  ids.foldl (cacheOne loader) descs

/-- Concrete class loader used on concrete inputs: the loaded class's
`__module__` is the import path's top-level segment. -/
def loader0 : String → Handle :=
  fun p => { module := String.mk (headSegment p.data), name := p }

/-- Concrete descriptor from package `a_xml`, tagged `xml`. -/
def d0 : PluginInfo :=
  { plugin_type := "test", absolute_import_path := some "a_xml.X", cls := none,
    tags0 := some ["xml"], properties := [] }

/-- Concrete descriptor from package `b_xml`, tagged `xml`. -/
def d1 : PluginInfo :=
  { plugin_type := "test", absolute_import_path := some "b_xml.Y", cls := none,
    tags0 := some ["xml"], properties := [] }

/-- Concrete descriptor store with two candidates for tag `xml`. -/
def descs1 : List PluginInfo := [d0, d1]

/-- Concrete manager whose registry maps `xml` to both descriptors. -/
def mgr1 : Manager := { plugin_name := "test", registry := [("xml", [0, 1])] }

/-- Number of tags of a descriptor whose lowering is `t`: how many times one
`load_me_later` call appends the descriptor under registry key `t`. -/
def tagCount (info : PluginInfo) (t : String) : Nat :=
  ((PluginInfo.tags info).filter (fun x => toLowerStr x == t)).length

/-- Spec-side description of the drain (from the spec's words on
`onManagerCreated`): the ids listed under registry key `t` after feeding the
pending descriptors to `indexLater` in original enqueue order. -/
def drainSpec (descs : List PluginInfo) (ids : List Nat) (t : String) : List Nat :=
  (ids.map (fun i => List.replicate (tagCount (descs.getD i dummyInfo) t) i)).flatten

/-- Registry lookup after appending `add` under a key whose previous lookup
was `o` (a `defaultdict` never stores an absent key until an append). -/
def lookupAfter : Option (List Nat) → List Nat → Option (List Nat)
  | some l, add => some (l ++ add)
  | none, [] => none
  | none, a :: rest => some (a :: rest)

/-- Concrete descriptor declared with an explicitly empty tag sequence. -/
def dEmptyTags : PluginInfo :=
  { plugin_type := "csv", absolute_import_path := some "m.C", cls := none,
    tags0 := some [], properties := [] }

/-- Store holding only `dEmptyTags`. -/
def descsE : List PluginInfo := [dEmptyTags]

/-- Fresh manager for plugin type `csv`. -/
def mgrE : Manager := { plugin_name := "csv", registry := [] }

/-- Concrete descriptor declared with no tags argument (default-tag case). -/
def dDefaultTag : PluginInfo :=
  { plugin_type := "csv", absolute_import_path := some "m.C", cls := none,
    tags0 := none, properties := [] }

/-- Store holding only `dDefaultTag`. -/
def descsD : List PluginInfo := [dDefaultTag]

/-- Store `descs1` after the first resolution cached `d0`'s class. -/
def descs1cached : List PluginInfo :=
  [{ d0 with cls := some { module := "a_xml", name := "a_xml.X" } }, d1]

/-- Concrete `writer` descriptor declared before manager creation. -/
def dw0 : PluginInfo :=
  { plugin_type := "writer", absolute_import_path := some "pkgA.W0", cls := none,
    tags0 := none, properties := [] }

/-- Second concrete `writer` descriptor declared before manager creation. -/
def dw1 : PluginInfo :=
  { plugin_type := "writer", absolute_import_path := some "pkgB.W1", cls := none,
    tags0 := none, properties := [] }

/-- Concrete `writer` descriptor declared after manager creation. -/
def dw2 : PluginInfo :=
  { plugin_type := "writer", absolute_import_path := some "pkgC.W2", cls := none,
    tags0 := none, properties := [] }

/-- Store for the directory scenario. -/
def descsW : List PluginInfo := [dw0, dw1, dw2]

/-- Directory with two `writer` descriptors pending and no managers. -/
def dir0 : Directory :=
  { PLUG_IN_MANAGERS := [], CACHED_PLUGIN_INFO := [("writer", [0, 1])] }

example : toLowerStr "CSV" = "csv" := by decide

example : _get_me_pypi_package_name "a_xml.X" = "a-xml" := by decide

example : (load_me_now loader0 mgr1 descs1 "xml" none).result
    = Except.ok { module := "a_xml", name := "a_xml.X" } := by decide

example : (load_me_now loader0 mgr1 descs1 "XML" (some "b-xml")).result
    = Except.ok { module := "b_xml", name := "b_xml.Y" } := by decide

example : (load_me_now loader0 mgr1 descs1 "xml" (some "c-xml")).result
    = Except.error { cls := "Exception", msg := "c-xml is not installed" } := by decide

example : (load_me_now loader0 mgr1 descs1 "nope" none).result
    = Except.error { cls := "Exception", msg := "No test is found for nope" } := by decide

/-! Helper lemmas about list updates and the association-list dictionaries. -/

theorem set_getD_self {α : Type _} : ∀ (l : List α) (i : Nat) (dflt : α),
    l.set i (l.getD i dflt) = l
  | [], _, _ => rfl
  | _ :: _, 0, _ => rfl
  | a :: t, i + 1, dflt => congrArg (a :: ·) (set_getD_self t i dflt)

theorem getD_set_eq {α : Type _} : ∀ (l : List α) (i : Nat) (v dflt : α),
    i < l.length → (l.set i v).getD i dflt = v
  | [], _, _, _, h => absurd h (by simp)
  | _ :: _, 0, _, _, _ => rfl
  | _ :: t, i + 1, v, dflt, h => getD_set_eq t i v dflt (Nat.lt_of_succ_lt_succ h)

theorem getD_set_ne {α : Type _} : ∀ (l : List α) (i j : Nat) (v dflt : α),
    i ≠ j → (l.set i v).getD j dflt = l.getD j dflt
  | [], _, _, _, _, _ => rfl
  | _ :: _, 0, 0, _, _, h => absurd rfl h
  | _ :: _, 0, _ + 1, _, _, _ => rfl
  | _ :: _, _ + 1, 0, _, _, _ => rfl
  | _ :: t, i + 1, j + 1, v, dflt, h =>
      getD_set_ne t i j v dflt (fun hc => h (congrArg Nat.succ hc))

theorem set_of_length_le {α : Type _} : ∀ (l : List α) (i : Nat) (v : α),
    l.length ≤ i → l.set i v = l
  | [], _, _, _ => rfl
  | _ :: _, 0, _, h => absurd h (by simp)
  | a :: t, i + 1, v, h => congrArg (a :: ·) (set_of_length_le t i v (Nat.le_of_succ_le_succ h))

theorem withCls_self : ∀ (p : PluginInfo) (c : Handle), p.cls = some c →
    { p with cls := some c } = p
  | ⟨_, _, _, _, _⟩, _, h => by cases h; rfl

/-! Lemmas characterising the dynamic-load step and the caching it performs. -/

theorem resolvedOf_some (loader : String → Handle) (descs : List PluginInfo) (i : Nat)
    (c : Handle) (hc : (descs.getD i dummyInfo).cls = some c) :
    resolvedOf loader descs i = c := by
  unfold resolvedOf
  rw [hc]

theorem cls_cacheOne_self (loader : String → Handle) (descs : List PluginInfo) (i : Nat)
    (h : i < descs.length) :
    ((cacheOne loader descs i).getD i dummyInfo).cls = some (resolvedOf loader descs i) := by
  unfold cacheOne
  rw [getD_set_eq _ _ _ _ h]

theorem getD_cacheOne_ne (loader : String → Handle) (descs : List PluginInfo)
    (i j : Nat) (h : i ≠ j) :
    (cacheOne loader descs i).getD j dummyInfo = descs.getD j dummyInfo := by
  unfold cacheOne
  exact getD_set_ne _ _ _ _ _ h

theorem cacheOne_of_length_le (loader : String → Handle) (descs : List PluginInfo)
    (i : Nat) (h : descs.length ≤ i) :
    cacheOne loader descs i = descs := by
  unfold cacheOne
  exact set_of_length_le _ _ _ h

theorem cacheOne_of_cls_some (loader : String → Handle) (descs : List PluginInfo)
    (i : Nat) (c : Handle) (hc : (descs.getD i dummyInfo).cls = some c) :
    cacheOne loader descs i = descs := by
  unfold cacheOne
  rw [resolvedOf_some loader descs i c hc, withCls_self _ _ hc, set_getD_self]

theorem resolvedOf_none (loader : String → Handle) (descs : List PluginInfo) (i : Nat)
    (hc : (descs.getD i dummyInfo).cls = none) :
    resolvedOf loader descs i =
      loader ((descs.getD i dummyInfo).absolute_import_path.getD "") := by
  unfold resolvedOf
  rw [hc]

theorem dyn_eq (loader : String → Handle) (descs : List PluginInfo) (i : Nat) :
    dynamic_load_library loader descs i =
      { cls := resolvedOf loader descs i, descs := cacheOne loader descs i,
        loads := if (descs.getD i dummyInfo).cls = none then 1 else 0 } := by
  cases hc : (descs.getD i dummyInfo).cls with
  | some c =>
      rw [resolvedOf_some loader descs i c hc, cacheOne_of_cls_some loader descs i c hc]
      simp only [dynamic_load_library, hc]
      simp
  | none =>
      rw [resolvedOf_none loader descs i hc]
      unfold cacheOne
      rw [resolvedOf_none loader descs i hc]
      simp only [dynamic_load_library, hc]
      simp

theorem resolvedOf_cacheOne (loader : String → Handle) (descs : List PluginInfo)
    (k j : Nat) :
    resolvedOf loader (cacheOne loader descs k) j = resolvedOf loader descs j := by
  by_cases hk : k < descs.length
  · by_cases hj : k = j
    · subst hj
      exact resolvedOf_some _ _ _ _ (cls_cacheOne_self loader descs k hk)
    · unfold resolvedOf
      rw [getD_cacheOne_ne loader descs k j hj]
  · rw [cacheOne_of_length_le loader descs k (Nat.le_of_not_lt hk)]

theorem pkgOf_cacheOne (loader : String → Handle) (descs : List PluginInfo) (k j : Nat) :
    pkgOf loader (cacheOne loader descs k) j = pkgOf loader descs j := by
  unfold pkgOf
  rw [resolvedOf_cacheOne]

theorem length_cacheOne (loader : String → Handle) (descs : List PluginInfo) (i : Nat) :
    (cacheOne loader descs i).length = descs.length := by
  unfold cacheOne
  exact List.length_set descs i _

theorem cacheList_cons (loader : String → Handle) (descs : List PluginInfo)
    (i : Nat) (rest : List Nat) :
    cacheList loader descs (i :: rest) = cacheList loader (cacheOne loader descs i) rest := rfl

theorem resolvedOf_cacheList (loader : String → Handle) (ids : List Nat) :
    ∀ (descs : List PluginInfo) (j : Nat),
    resolvedOf loader (cacheList loader descs ids) j = resolvedOf loader descs j := by
  induction ids with
  | nil => intro descs j; rfl
  | cons i rest ih =>
      intro descs j
      rw [cacheList_cons, ih, resolvedOf_cacheOne]

theorem cls_cacheList (loader : String → Handle) (ids : List Nat) :
    ∀ (descs : List PluginInfo) (j : Nat), j < descs.length →
    ((cacheList loader descs ids).getD j dummyInfo).cls =
      if j ∈ ids then some (resolvedOf loader descs j)
      else (descs.getD j dummyInfo).cls := by
  induction ids with
  | nil =>
      intro descs j hj
      simp [cacheList]
  | cons i rest ih =>
      intro descs j hj
      have hlen : j < (cacheOne loader descs i).length := by
        rw [length_cacheOne]; exact hj
      rw [cacheList_cons, ih _ _ hlen]
      by_cases hjr : j ∈ rest
      · rw [if_pos hjr, if_pos (List.mem_cons_of_mem i hjr), resolvedOf_cacheOne]
      · by_cases hje : j = i
        · have hmem : j ∈ (i :: rest) := by
            rw [hje]; exact List.mem_cons_self i rest
          rw [if_neg hjr, if_pos hmem, hje]
          exact cls_cacheOne_self loader descs i (hje ▸ hj)
        · have hni : ¬(j ∈ (i :: rest)) := by
            simp [List.mem_cons, hje, hjr]
          rw [if_neg hjr, if_neg hni,
            getD_cacheOne_ne loader descs i j (fun hc => hje hc.symm)]

/-! Lemmas about the dictionary model and the branches of load_me_now. -/

theorem assocLookup_assocSet {α : Type _} :
    ∀ (r : List (String × α)) (k k' : String) (v : α),
    assocLookup (assocSet r k v) k' = if k == k' then some v else assocLookup r k' := by
  intro r
  induction r with
  | nil =>
      intro k k' v
      simp [assocSet, assocLookup]
  | cons p rest ih =>
      intro k k' v
      obtain ⟨a, b⟩ := p
      by_cases hak : a = k
      · by_cases hak' : a = k'
        · have hkk : k = k' := by rw [← hak, hak']
          simp [assocSet, assocLookup, hak, hak', hkk]
        · have hkk : ¬(k = k') := fun h => hak' (by rw [hak, h])
          simp [assocSet, assocLookup, hak, hak', hkk]
      · by_cases hak' : a = k'
        · have hkk : ¬(k = k') := fun h => hak (by rw [h, ← hak'])
          have hkk' : ¬(k' = k) := fun h => hkk h.symm
          simp [assocSet, assocLookup, hak, hak', hkk, hkk', ih]
        · simp [assocSet, assocLookup, hak, hak', ih]

theorem assocLookup_assocAppend :
    ∀ (r : List (String × List Nat)) (k k' : String) (i : Nat),
    assocLookup (assocAppend r k i) k' =
      if k == k' then some ((assocLookup r k').getD [] ++ [i]) else assocLookup r k' := by
  intro r
  induction r with
  | nil =>
      intro k k' i
      by_cases hkk : k = k'
      · simp [assocAppend, assocLookup, hkk]
      · simp [assocAppend, assocLookup, hkk]
  | cons p rest ih =>
      intro k k' i
      obtain ⟨a, b⟩ := p
      by_cases hak : a = k
      · by_cases hak' : a = k'
        · have hkk : k = k' := by rw [← hak, hak']
          simp [assocAppend, assocLookup, hak, hak', hkk]
        · have hkk : ¬(k = k') := fun h => hak' (by rw [hak, h])
          simp [assocAppend, assocLookup, hak, hak', hkk]
      · by_cases hak' : a = k'
        · have hkk : ¬(k = k') := fun h => hak (by rw [h, ← hak'])
          have hkk' : ¬(k' = k) := fun h => hkk h.symm
          simp [assocAppend, assocLookup, hak, hak', hkk, hkk']
        · simp [assocAppend, assocLookup, hak, hak', ih]

theorem assocLookup_assocErase_self {α : Type _} :
    ∀ (r : List (String × α)) (k : String),
    assocLookup (assocErase r k) k = none := by
  intro r
  induction r with
  | nil =>
      intro k
      rfl
  | cons p rest ih =>
      intro k
      by_cases hpk : p.1 = k
      · simpa [assocErase, List.filter_cons, hpk] using ih k
      · have hstep : assocErase (p :: rest) k = p :: assocErase rest k := by
          simp [assocErase, List.filter_cons, hpk]
        rw [hstep]
        show (if p.1 == k then some p.2 else assocLookup (assocErase rest k) k) = none
        simp [hpk, ih k]

theorem dd_contains_of_lookup (r : List (String × List Nat)) (k : String)
    (ids : List Nat) (h : assocLookup r k = some ids) : dd_contains r k = true := by
  unfold dd_contains
  rw [h]
  rfl

theorem dd_getitem_of_contains (r : List (String × List Nat)) (k : String)
    (ids : List Nat) (h : assocLookup r k = some ids) : dd_getitem r k = (ids, r) := by
  unfold dd_getitem
  rw [h]

theorem load_me_now_registered (loader : String → Handle) (mgr : Manager)
    (descs : List PluginInfo) (key : String) (library : Option String) (ids : List Nat)
    (h : assocLookup mgr.registry (toLowerStr key) = some ids) :
    load_me_now loader mgr descs key library =
      { result := (load_me_now_loop loader library ids descs 0).result,
        manager := mgr,
        descs := (load_me_now_loop loader library ids descs 0).descs,
        loads := (load_me_now_loop loader library ids descs 0).loads } := by
  simp only [load_me_now, dd_contains_of_lookup _ _ _ h, dd_getitem_of_contains _ _ _ h,
    if_true]

theorem load_me_now_unregistered (loader : String → Handle) (mgr : Manager)
    (descs : List PluginInfo) (key : String) (library : Option String)
    (h : assocLookup mgr.registry (toLowerStr key) = none) :
    load_me_now loader mgr descs key library =
      { result := Except.error (raise_exception_err mgr.plugin_name key),
        manager := mgr, descs := descs, loads := 0 } := by
  have hc : dd_contains mgr.registry (toLowerStr key) = false := by
    unfold dd_contains
    rw [h]
    rfl
  simp only [load_me_now, hc]
  simp

/-! Lemmas about the scanning loop of load_me_now. -/

theorem loop_first_none (loader : String → Handle) (i : Nat) (rest : List Nat)
    (descs : List PluginInfo) (n : Nat) :
    load_me_now_loop loader none (i :: rest) descs n =
      { result := Except.ok (resolvedOf loader descs i),
        descs := cacheOne loader descs i,
        loads := n + (dynamic_load_library loader descs i).loads } := by
  simp only [load_me_now_loop, truthy, Bool.false_and, Bool.false_eq_true, if_false]
  rw [dyn_eq]

theorem loop_match (loader : String → Handle) (lib : String) (i : Nat) (rest : List Nat)
    (descs : List PluginInfo) (n : Nat) (hmatch : pkgOf loader descs i = lib) :
    load_me_now_loop loader (some lib) (i :: rest) descs n =
      { result := Except.ok (resolvedOf loader descs i),
        descs := cacheOne loader descs i,
        loads := n + (dynamic_load_library loader descs i).loads } := by
  have hmod : _get_me_pypi_package_name (dynamic_load_library loader descs i).cls.module
      = lib := by
    rw [dyn_eq]
    exact hmatch
  simp only [load_me_now_loop, libStr, hmod, bne_self_eq_false, Bool.and_false,
    Bool.false_eq_true, if_false]
  rw [dyn_eq]

theorem loop_continue (loader : String → Handle) (lib : String) (hlib : lib ≠ "")
    (i : Nat) (rest : List Nat) (descs : List PluginInfo) (n : Nat)
    (hne : pkgOf loader descs i ≠ lib) :
    load_me_now_loop loader (some lib) (i :: rest) descs n =
      load_me_now_loop loader (some lib) rest (cacheOne loader descs i)
        (n + (dynamic_load_library loader descs i).loads) := by
  have hmod : (_get_me_pypi_package_name (dynamic_load_library loader descs i).cls.module
      != lib) = true := by
    rw [dyn_eq]
    simp only [bne_iff_ne, ne_eq]
    exact hne
  have htr : truthy (some lib) = true := by
    simp [truthy, hlib]
  simp only [load_me_now_loop, libStr, htr, hmod, Bool.and_self, Bool.true_and, if_true]
  rw [dyn_eq]

theorem loop_error_shape (loader : String → Handle) (library : Option String) :
    ∀ (ids : List Nat) (descs : List PluginInfo) (n : Nat) (e : PyError),
    (load_me_now_loop loader library ids descs n).result = Except.error e →
    e = not_installed_err library := by
  intro ids
  induction ids with
  | nil =>
      intro descs n e h
      simp only [load_me_now_loop] at h
      exact (Except.error.inj h).symm
  | cons i rest ih =>
      intro descs n e h
      simp only [load_me_now_loop] at h
      split at h
      · exact ih _ _ _ h
      · simp at h

theorem exists_first_decomp {P : Nat → Prop} :
    ∀ (l : List Nat), ¬(∀ j ∈ l, ¬ P j) →
    ∃ before cur post, l = before ++ cur :: post ∧ (∀ j ∈ before, ¬ P j) ∧ P cur := by
  intro l
  induction l with
  | nil =>
      intro h
      refine absurd ?_ h
      intro j hj
      cases hj
  | cons a t ih =>
      intro h
      by_cases hPa : P a
      · refine ⟨[], a, t, rfl, ?_, hPa⟩
        intro j hj
        cases hj
      · have ht : ¬(∀ j ∈ t, ¬ P j) := by
          intro hall
          refine h ?_
          intro j hj
          rcases List.mem_cons.mp hj with hj1 | hj2
          · rw [hj1]; exact hPa
          · exact hall j hj2
        obtain ⟨before, cur, post, heq, hbefore, hcur⟩ := ih ht
        refine ⟨a :: before, cur, post, by rw [heq, List.cons_append], ?_, hcur⟩
        intro j hj
        rcases List.mem_cons.mp hj with hj1 | hj2
        · rw [hj1]; exact hPa
        · exact hbefore j hj2

theorem loop_nomatch (loader : String → Handle) (lib : String) (hlib : lib ≠ "") :
    ∀ (ids : List Nat) (descs : List PluginInfo) (n : Nat),
    (∀ j ∈ ids, pkgOf loader descs j ≠ lib) →
    (load_me_now_loop loader (some lib) ids descs n).result
        = Except.error (not_installed_err (some lib)) ∧
    (load_me_now_loop loader (some lib) ids descs n).descs = cacheList loader descs ids := by
  intro ids
  induction ids with
  | nil =>
      intro descs n _
      exact ⟨rfl, rfl⟩
  | cons i rest ih =>
      intro descs n hall
      rw [loop_continue loader lib hlib i rest descs n (hall i (List.mem_cons_self i rest))]
      have hall' : ∀ j ∈ rest, pkgOf loader (cacheOne loader descs i) j ≠ lib := by
        intro j hj
        rw [pkgOf_cacheOne]
        exact hall j (List.mem_cons_of_mem i hj)
      obtain ⟨h1, h2⟩ :=
        ih (cacheOne loader descs i) (n + (dynamic_load_library loader descs i).loads) hall'
      refine ⟨h1, ?_⟩
      rw [h2, ← cacheList_cons]

theorem loop_found (loader : String → Handle) (lib : String) (hlib : lib ≠ "") :
    ∀ (before : List Nat) (cur : Nat) (post : List Nat) (descs : List PluginInfo) (n : Nat),
    (∀ j ∈ before, pkgOf loader descs j ≠ lib) →
    pkgOf loader descs cur = lib →
    (load_me_now_loop loader (some lib) (before ++ cur :: post) descs n).result =
        Except.ok (resolvedOf loader descs cur) ∧
    (load_me_now_loop loader (some lib) (before ++ cur :: post) descs n).descs =
        cacheList loader descs (before ++ [cur]) := by
  intro before
  induction before with
  | nil =>
      intro cur post descs n _ hcur
      rw [List.nil_append, loop_match loader lib cur post descs n hcur]
      exact ⟨rfl, rfl⟩
  | cons q rest ih =>
      intro cur post descs n hbefore hcur
      rw [List.cons_append,
        loop_continue loader lib hlib q (rest ++ cur :: post) descs n
          (hbefore q (List.mem_cons_self q rest))]
      have hbefore' : ∀ j ∈ rest, pkgOf loader (cacheOne loader descs q) j ≠ lib := by
        intro j hj
        rw [pkgOf_cacheOne]
        exact hbefore j (List.mem_cons_of_mem q hj)
      have hcur' : pkgOf loader (cacheOne loader descs q) cur = lib := by
        rw [pkgOf_cacheOne]
        exact hcur
      obtain ⟨h1, h2⟩ :=
        ih cur post (cacheOne loader descs q)
          (n + (dynamic_load_library loader descs q).loads) hbefore' hcur'
      constructor
      · rw [h1, resolvedOf_cacheOne]
      · rw [h2, List.cons_append, cacheList_cons]

/-! Lemmas about registration order: load_me_later folds and the drain. -/

theorem lookupAfter_nil (o : Option (List Nat)) : lookupAfter o [] = o := by
  cases o with
  | none => rfl
  | some l => simp [lookupAfter]

theorem lookupAfter_append (o : Option (List Nat)) (a b : List Nat) :
    lookupAfter o (a ++ b) = lookupAfter (lookupAfter o a) b := by
  cases o with
  | some l =>
      cases b with
      | nil => simp [lookupAfter]
      | cons y b' => simp [lookupAfter]
  | none =>
      cases a with
      | nil => rfl
      | cons x a' =>
          cases b with
          | nil => simp [lookupAfter]
          | cons y b' => simp [lookupAfter]

theorem foldAppend (ts : List String) :
    ∀ (r : List (String × List Nat)) (t : String) (i : Nat),
    assocLookup (ts.foldl (fun r' x => assocAppend r' (toLowerStr x) i) r) t =
      lookupAfter (assocLookup r t)
        (List.replicate ((ts.filter (fun x => toLowerStr x == t)).length) i) := by
  induction ts with
  | nil =>
      intro r t i
      simp only [List.foldl_nil, List.filter_nil, List.length_nil, List.replicate_zero]
      rw [lookupAfter_nil]
  | cons x ts' ih =>
      intro r t i
      simp only [List.foldl_cons, List.filter_cons]
      by_cases hx : toLowerStr x = t
      · have hb : (toLowerStr x == t) = true := by simp [hx]
        simp only [hb, if_true, List.length_cons, List.replicate_succ]
        rw [ih, assocLookup_assocAppend, hx]
        have hbt : (t == t) = true := by simp
        rw [hbt]
        simp only [if_true]
        cases ho : assocLookup r t with
        | none => simp [lookupAfter]
        | some l => simp [lookupAfter]
      · have hb : (toLowerStr x == t) = false := by simp [hx]
        simp only [hb, Bool.false_eq_true, if_false]
        rw [ih, assocLookup_assocAppend]
        have hbt : (toLowerStr x == t) = false := hb
        rw [hbt]
        simp only [Bool.false_eq_true, if_false]

theorem load_me_later_lookup (m : Manager) (descs : List PluginInfo) (i : Nat) (t : String) :
    assocLookup (load_me_later m descs i).registry t =
      lookupAfter (assocLookup m.registry t)
        (List.replicate (tagCount (descs.getD i dummyInfo) t) i) := by
  unfold load_me_later tagCount
  exact foldAppend _ _ _ _

theorem drainSpec_cons (descs : List PluginInfo) (i : Nat) (rest : List Nat) (t : String) :
    drainSpec descs (i :: rest) t =
      List.replicate (tagCount (descs.getD i dummyInfo) t) i ++ drainSpec descs rest t := by
  simp [drainSpec]

theorem drain_lookup (descs : List PluginInfo) :
    ∀ (ids : List Nat) (m : Manager) (t : String),
    assocLookup ((ids.foldl (fun m' i => load_me_later m' descs i) m)).registry t =
      lookupAfter (assocLookup m.registry t) (drainSpec descs ids t) := by
  intro ids
  induction ids with
  | nil =>
      intro m t
      simp only [List.foldl_nil, drainSpec, List.map_nil, List.flatten_nil]
      rw [lookupAfter_nil]
  | cons i rest ih =>
      intro m t
      simp only [List.foldl_cons]
      rw [ih, load_me_later_lookup, drainSpec_cons, lookupAfter_append]

/-! Small lemmas connecting get? facts to getD reads. -/

theorem getD_of_get? {α : Type _} : ∀ (l : List α) (i : Nat) (p d : α),
    l.get? i = some p → l.getD i d = p
  | [], _, _, _, h => nomatch h
  | _ :: _, 0, _, _, h => by cases h; rfl
  | _ :: t, i + 1, p, d, h => getD_of_get? t i p d h

theorem lt_length_of_get? {α : Type _} : ∀ (l : List α) (i : Nat) (p : α),
    l.get? i = some p → i < l.length
  | _ :: _, 0, _, _ => Nat.succ_pos _
  | _ :: t, i + 1, p, h => Nat.succ_lt_succ (lt_length_of_get? t i p h)
  | [], _, _, h => nomatch h

/-! Claim theorems. -/

/-- C5: `resolve(tag)` with no libraryFilter returns the handle of the first
descriptor in the tag's insertion-ordered list, without filtering by package
and without scanning the rest of the list: the result, the store and the
load count are exactly those of resolving the first descriptor alone, and
every store entry other than the first descriptor's is unchanged. -/
theorem C5_no_filter_returns_first (loader : String → Handle) (mgr : Manager)
    (descs : List PluginInfo) (key : String) (i : Nat) (rest : List Nat)
    (hreg : assocLookup mgr.registry (toLowerStr key) = some (i :: rest)) :
    load_me_now loader mgr descs key none =
      { result := Except.ok (resolvedOf loader descs i),
        manager := mgr,
        descs := cacheOne loader descs i,
        loads := (dynamic_load_library loader descs i).loads } ∧
    ∀ j, j ≠ i → (cacheOne loader descs i).getD j dummyInfo = descs.getD j dummyInfo := by
  constructor
  · rw [load_me_now_registered loader mgr descs key none (i :: rest) hreg,
      loop_first_none loader i rest descs 0]
    simp
  · intro j hj
    exact getD_cacheOne_ne loader descs i j (fun hc => hj hc.symm)

/-- Witness for C5 on the concrete two-candidate registry. -/
theorem C5_witness :
    (load_me_now loader0 mgr1 descs1 "xml" none =
      { result := Except.ok (resolvedOf loader0 descs1 0),
        manager := mgr1,
        descs := cacheOne loader0 descs1 0,
        loads := (dynamic_load_library loader0 descs1 0).loads }) ∧
    (cacheOne loader0 descs1 0).getD 1 dummyInfo = descs1.getD 1 dummyInfo := by
  have h := C5_no_filter_returns_first loader0 mgr1 descs1 "xml" 0 [1] (by decide)
  exact ⟨h.1, h.2 1 (by decide)⟩

/-- C6: for a path-based descriptor (cls unset, import path set) that is
first in its tag's list, the first resolution invokes the class loader once
with the import path and caches the result on the descriptor; resolving the
descriptor or the tag again returns the cached handle with zero further
loader invocations. -/
theorem C6_exactly_once_load (loader : String → Handle) (mgr : Manager)
    (descs : List PluginInfo) (key : String) (i : Nat) (rest : List Nat)
    (p : PluginInfo) (path : String)
    (hreg : assocLookup mgr.registry (toLowerStr key) = some (i :: rest))
    (hip : descs.get? i = some p)
    (hcls : p.cls = none)
    (hpath : p.absolute_import_path = some path) :
    dynamic_load_library loader descs i =
      { cls := loader path,
        descs := descs.set i { p with cls := some (loader path) }, loads := 1 } ∧
    dynamic_load_library loader (descs.set i { p with cls := some (loader path) }) i =
      { cls := loader path,
        descs := descs.set i { p with cls := some (loader path) }, loads := 0 } ∧
    load_me_now loader mgr descs key none =
      { result := Except.ok (loader path), manager := mgr,
        descs := descs.set i { p with cls := some (loader path) }, loads := 1 } ∧
    load_me_now loader mgr (descs.set i { p with cls := some (loader path) }) key none =
      { result := Except.ok (loader path), manager := mgr,
        descs := descs.set i { p with cls := some (loader path) }, loads := 0 } := by
  have hlt : i < descs.length := lt_length_of_get? descs i p hip
  have hgetD : descs.getD i dummyInfo = p := getD_of_get? descs i p dummyInfo hip
  have hcls' : (descs.getD i dummyInfo).cls = none := by
    rw [hgetD]
    exact hcls
  have hr : resolvedOf loader descs i = loader path := by
    rw [resolvedOf_none loader descs i hcls', hgetD, hpath]
    rfl
  have hco : cacheOne loader descs i = descs.set i { p with cls := some (loader path) } := by
    unfold cacheOne
    rw [hgetD, hr]
  have hd1 : dynamic_load_library loader descs i =
      { cls := loader path,
        descs := descs.set i { p with cls := some (loader path) }, loads := 1 } := by
    rw [dyn_eq, hr, hco, hcls']
    simp
  have hg2 : (descs.set i { p with cls := some (loader path) }).getD i dummyInfo =
      { p with cls := some (loader path) } := getD_set_eq _ _ _ _ hlt
  have hc2 : ((descs.set i { p with cls := some (loader path) }).getD i dummyInfo).cls =
      some (loader path) := by
    rw [hg2]
  have hr2 : resolvedOf loader (descs.set i { p with cls := some (loader path) }) i =
      loader path := resolvedOf_some _ _ _ _ hc2
  have hco2 : cacheOne loader (descs.set i { p with cls := some (loader path) }) i =
      descs.set i { p with cls := some (loader path) } :=
    cacheOne_of_cls_some _ _ _ _ hc2
  have hd2 : dynamic_load_library loader (descs.set i { p with cls := some (loader path) }) i =
      { cls := loader path,
        descs := descs.set i { p with cls := some (loader path) }, loads := 0 } := by
    rw [dyn_eq, hr2, hco2, hc2]
    simp
  refine ⟨hd1, hd2, ?_, ?_⟩
  · rw [load_me_now_registered loader mgr descs key none (i :: rest) hreg,
      loop_first_none loader i rest descs 0, hr, hco, hd1]
    simp
  · rw [load_me_now_registered loader mgr (descs.set i { p with cls := some (loader path) })
      key none (i :: rest) hreg,
      loop_first_none loader i rest (descs.set i { p with cls := some (loader path) }) 0,
      hr2, hco2, hd2]
    simp

/-- Witness for C6: resolving `xml` twice on the concrete store invokes the
loader once in total. -/
theorem C6_witness :
    load_me_now loader0 mgr1 descs1 "xml" none =
      { result := Except.ok (loader0 "a_xml.X"), manager := mgr1,
        descs := descs1.set 0 { d0 with cls := some (loader0 "a_xml.X") }, loads := 1 } ∧
    load_me_now loader0 mgr1 (descs1.set 0 { d0 with cls := some (loader0 "a_xml.X") })
        "xml" none =
      { result := Except.ok (loader0 "a_xml.X"), manager := mgr1,
        descs := descs1.set 0 { d0 with cls := some (loader0 "a_xml.X") }, loads := 0 } := by
  have h := C6_exactly_once_load loader0 mgr1 descs1 "xml" 0 [1] d0 "a_xml.X"
    (by decide) (by decide) (by decide) (by decide)
  exact ⟨h.2.2.1, h.2.2.2⟩

/-- C9: whenever `resolve` fails (either failure kind), the error is returned
synchronously as the call's result and the manager — in particular its
tag-to-descriptor-list registry — is unchanged by the failed call. -/
theorem C9_failed_resolve_preserves_registry (loader : String → Handle) (mgr : Manager)
    (descs : List PluginInfo) (key : String) (library : Option String) (e : PyError)
    (_hfail : (load_me_now loader mgr descs key library).result = Except.error e) :
    (load_me_now loader mgr descs key library).manager = mgr := by
  cases hreg : assocLookup mgr.registry (toLowerStr key) with
  | some ids => rw [load_me_now_registered loader mgr descs key library ids hreg]
  | none => rw [load_me_now_unregistered loader mgr descs key library hreg]

/-- Witness for C9: the failed lookup of an unregistered tag leaves the
concrete manager untouched. -/
theorem C9_witness :
    (load_me_now loader0 mgr1 descs1 "nope" none).manager = mgr1 :=
  C9_failed_resolve_preserves_registry loader0 mgr1 descs1 "nope" none
    (raise_exception_err "test" "nope") (by decide)

/-- C7: tag lookup is case-insensitive: two query keys equal after lowering
consult the same registry entry, and whenever the tag is registered the two
resolve calls return identical results (handle, manager, store and loads). -/
theorem C7_case_insensitive (loader : String → Handle) (mgr : Manager)
    (descs : List PluginInfo) (key1 key2 : String) (library : Option String)
    (h12 : toLowerStr key1 = toLowerStr key2) :
    assocLookup mgr.registry (toLowerStr key1) = assocLookup mgr.registry (toLowerStr key2) ∧
    ∀ ids, assocLookup mgr.registry (toLowerStr key1) = some ids →
      load_me_now loader mgr descs key1 library = load_me_now loader mgr descs key2 library := by
  constructor
  · rw [h12]
  · intro ids h1
    have h2 : assocLookup mgr.registry (toLowerStr key2) = some ids := by
      rw [← h12]
      exact h1
    rw [load_me_now_registered loader mgr descs key1 library ids h1,
      load_me_now_registered loader mgr descs key2 library ids h2]

/-- Witness for C7: `XML` and `xml` resolve identically on the concrete
registry. -/
theorem C7_witness :
    load_me_now loader0 mgr1 descs1 "XML" none = load_me_now loader0 mgr1 descs1 "xml" none :=
  (C7_case_insensitive loader0 mgr1 descs1 "XML" "xml" none (by decide)).2 [0, 1] (by decide)

/-- C4: with a registered tag and a set libraryFilter (a non-empty string:
the code's truthiness test treats an empty filter as unset), `resolve` scans
the tag's descriptor list in insertion order and returns the handle of the
first descriptor whose originating package name — top-level segment of the
resolved handle's module path, underscores replaced by hyphens — equals the
filter; if no scanned descriptor matches, it fails with the not-installed
error. -/
theorem C4_filter_scan (loader : String → Handle) (mgr : Manager)
    (descs : List PluginInfo) (key lib : String) (ids : List Nat)
    (hreg : assocLookup mgr.registry (toLowerStr key) = some ids)
    (hlib : lib ≠ "") :
    ((∀ j ∈ ids, pkgOf loader descs j ≠ lib) →
      (load_me_now loader mgr descs key (some lib)).result =
        Except.error (not_installed_err (some lib))) ∧
    (∀ before cur post, ids = before ++ cur :: post →
      (∀ j ∈ before, pkgOf loader descs j ≠ lib) →
      pkgOf loader descs cur = lib →
      (load_me_now loader mgr descs key (some lib)).result =
        Except.ok (resolvedOf loader descs cur)) := by
  constructor
  · intro hall
    rw [load_me_now_registered loader mgr descs key (some lib) ids hreg]
    exact (loop_nomatch loader lib hlib ids descs 0 hall).1
  · intro before cur post hsplit hbefore hcur
    rw [load_me_now_registered loader mgr descs key (some lib) ids hreg, hsplit]
    exact (loop_found loader lib hlib before cur post descs 0 hbefore hcur).1

/-- Witness for C4: filtering for `b-xml` skips the first candidate and
returns the second; filtering for `c-xml` fails with not-installed. -/
theorem C4_witness :
    (load_me_now loader0 mgr1 descs1 "xml" (some "b-xml")).result =
      Except.ok (resolvedOf loader0 descs1 1) ∧
    (load_me_now loader0 mgr1 descs1 "xml" (some "c-xml")).result =
      Except.error (not_installed_err (some "c-xml")) := by
  constructor
  · exact (C4_filter_scan loader0 mgr1 descs1 "xml" "b-xml" [0, 1] (by decide) (by decide)).2
      [0] 1 [] (by decide) (by decide) (by decide)
  · exact (C4_filter_scan loader0 mgr1 descs1 "xml" "c-xml" [0, 1] (by decide) (by decide)).1
      (by decide)

/-- C10: with a set libraryFilter (non-empty, per the code's truthiness
test), the scan resolves and caches every descriptor it visits, not only the
one whose handle is returned: on failure every descriptor in the list ends
up with its handle cached, and the caching persists in the store returned
alongside the error; on success every descriptor up to and including the
first match is cached. -/
theorem C10_scan_caches_all_visited (loader : String → Handle) (mgr : Manager)
    (descs : List PluginInfo) (key lib : String) (ids : List Nat)
    (hreg : assocLookup mgr.registry (toLowerStr key) = some ids)
    (hlib : lib ≠ "")
    (hrange : ∀ j ∈ ids, j < descs.length) :
    (∀ e, (load_me_now loader mgr descs key (some lib)).result = Except.error e →
      (load_me_now loader mgr descs key (some lib)).descs = cacheList loader descs ids ∧
      ∀ j ∈ ids,
        (((load_me_now loader mgr descs key (some lib)).descs).getD j dummyInfo).cls =
          some (resolvedOf loader descs j)) ∧
    (∀ before cur post, ids = before ++ cur :: post →
      (∀ j ∈ before, pkgOf loader descs j ≠ lib) →
      pkgOf loader descs cur = lib →
      (load_me_now loader mgr descs key (some lib)).descs =
        cacheList loader descs (before ++ [cur]) ∧
      ∀ j ∈ before ++ [cur],
        (((load_me_now loader mgr descs key (some lib)).descs).getD j dummyInfo).cls =
          some (resolvedOf loader descs j)) := by
  rw [load_me_now_registered loader mgr descs key (some lib) ids hreg]
  constructor
  · intro e herr
    by_cases hall : ∀ j ∈ ids, pkgOf loader descs j ≠ lib
    · obtain ⟨h1, h2⟩ := loop_nomatch loader lib hlib ids descs 0 hall
      refine ⟨h2, ?_⟩
      intro j hj
      rw [h2, cls_cacheList loader ids descs j (hrange j hj)]
      simp [hj]
    · obtain ⟨before, cur, post, hsplit, hbefore, hcur⟩ :=
        exists_first_decomp ids hall
      rw [hsplit] at herr
      rw [(loop_found loader lib hlib before cur post descs 0 hbefore hcur).1] at herr
      simp at herr
  · intro before cur post hsplit hbefore hcur
    obtain ⟨h1, h2⟩ := loop_found loader lib hlib before cur post descs 0 hbefore hcur
    rw [hsplit]
    refine ⟨h2, ?_⟩
    intro j hj
    have hjids : j ∈ ids := by
      rw [hsplit]
      rcases List.mem_append.mp hj with hb | hc
      · exact List.mem_append.mpr (Or.inl hb)
      · have hjc : j = cur := by simpa using hc
        rw [hjc]
        exact List.mem_append.mpr (Or.inr (List.mem_cons_self _ _))
    rw [h2, cls_cacheList loader (before ++ [cur]) descs j (hrange j hjids)]
    simp [hj]

/-- Witness for C10: the failed `c-xml` scan caches the resolved handle onto
both `xml` candidates even though it raises. -/
theorem C10_witness :
    (load_me_now loader0 mgr1 descs1 "xml" (some "c-xml")).descs =
      cacheList loader0 descs1 [0, 1] ∧
    (((load_me_now loader0 mgr1 descs1 "xml" (some "c-xml")).descs).getD 1 dummyInfo).cls =
      some (resolvedOf loader0 descs1 1) := by
  have h := (C10_scan_caches_all_visited loader0 mgr1 descs1 "xml" "c-xml" [0, 1]
    (by decide) (by decide) (by decide)).1 (not_installed_err (some "c-xml")) (by decide)
  exact ⟨h.1, h.2 1 (by decide)⟩

/-- C3 counterexample: on a concrete registry both failure paths raise the
same Python exception kind (`Exception`); the tag-not-found and the
library-not-installed failures differ only in their messages, refuting the
claim that they are distinguishable error kinds. -/
theorem C3_counterexample :
    (load_me_now loader0 mgr1 descs1 "unknownTag" none).result =
      Except.error { cls := "Exception", msg := "No test is found for unknownTag" } ∧
    (load_me_now loader0 mgr1 descs1 "xml" (some "c-xml")).result =
      Except.error { cls := "Exception", msg := "c-xml is not installed" } ∧
    ({ cls := "Exception", msg := "No test is found for unknownTag" } : PyError).cls =
      ({ cls := "Exception", msg := "c-xml is not installed" } : PyError).cls := by
  refine ⟨by decide, by decide, rfl⟩

/-- C3 (amended): `resolve` on an unregistered tag fails with a plain
`Exception` whose message is `No <pluginType> is found for <tag>`, and a
registered tag whose scan exhausts the list fails with a plain `Exception`
whose message is `<library> is not installed`; the two failures are the same
exception kind and differ only in message. -/
theorem C3_same_kind_different_message (loader : String → Handle) (mgr : Manager)
    (descs : List PluginInfo) (key : String) (library : Option String) :
    (assocLookup mgr.registry (toLowerStr key) = none →
      (load_me_now loader mgr descs key library).result =
        Except.error
          (PyError.mk "Exception" ("No " ++ mgr.plugin_name ++ " is found for " ++ key))) ∧
    (∀ e, (load_me_now loader mgr descs key library).result = Except.error e →
      e.cls = "Exception" ∧
      (e.msg = "No " ++ mgr.plugin_name ++ " is found for " ++ key ∨
       e.msg = libStr library ++ " is not installed")) := by
  constructor
  · intro h
    rw [load_me_now_unregistered loader mgr descs key library h]
    rfl
  · intro e herr
    cases hreg : assocLookup mgr.registry (toLowerStr key) with
    | none =>
        rw [load_me_now_unregistered loader mgr descs key library hreg] at herr
        have he : raise_exception_err mgr.plugin_name key = e := Except.error.inj herr
        rw [← he]
        exact ⟨rfl, Or.inl rfl⟩
    | some ids =>
        rw [load_me_now_registered loader mgr descs key library ids hreg] at herr
        have he := loop_error_shape loader library ids descs 0 e herr
        rw [he]
        exact ⟨rfl, Or.inr rfl⟩

/-- Witness for the amended C3 on concrete failing calls of both shapes. -/
theorem C3_witness :
    (load_me_now loader0 mgr1 descs1 "unknownTag" none).result =
      Except.error { cls := "Exception", msg := "No test is found for unknownTag" } ∧
    ({ cls := "Exception", msg := "c-xml is not installed" } : PyError).cls = "Exception" := by
  constructor
  · exact (C3_same_kind_different_message loader0 mgr1 descs1 "unknownTag" none).1 (by decide)
  · exact ((C3_same_kind_different_message loader0 mgr1 descs1 "xml" (some "c-xml")).2
      { cls := "Exception", msg := "c-xml is not installed" } (by decide)).1

/-- C1 counterexample: on a concrete registry, `get_a_plugin` with
construction arguments returns an instance built with no arguments, while
the claim's reading (arguments forwarded) yields a different instance. -/
theorem C1_counterexample :
    (get_a_plugin loader0 mgr1 descs1 "xml" [("x", "1")]).result =
      Except.ok { cls := { module := "a_xml", name := "a_xml.X" }, args := [] } ∧
    (get_a_plugin_claimed loader0 mgr1 descs1 "xml" [("x", "1")]).result =
      Except.ok { cls := { module := "a_xml", name := "a_xml.X" }, args := [("x", "1")] } ∧
    ([] : List (String × String)) ≠ [("x", "1")] := by
  refine ⟨by decide, by decide, by decide⟩

/-- C1 (amended): `get_a_plugin` resolves the tag via `load_me_now(tag)` and
returns an instance constructed by calling the resolved handle with NO
arguments: the accepted constructionArgs are ignored, and the whole result
is independent of them. -/
theorem C1_args_not_forwarded (loader : String → Handle) (mgr : Manager)
    (descs : List PluginInfo) (key : String) (keywords : List (String × String)) :
    (get_a_plugin loader mgr descs key keywords).result =
      ((load_me_now loader mgr descs key none).result).map
        (fun c => { cls := c, args := [] }) ∧
    get_a_plugin loader mgr descs key keywords = get_a_plugin loader mgr descs key [] := by
  constructor
  · unfold get_a_plugin
    cases h : (load_me_now loader mgr descs key none).result with
    | ok c => simp [h, Except.map]
    | error e => simp [h, Except.map]
  · rfl

/-- C2 counterexample: a descriptor declared with an explicitly empty tag
sequence is indexed under no tag at all and is not resolvable under its
pluginType, refuting the claim that the effective tag set is then
exactly the pluginType singleton. -/
theorem C2_counterexample :
    (load_me_later mgrE descsE 0).registry = [] ∧
    (load_me_now loader0 (load_me_later mgrE descsE 0) descsE "csv" none).result =
      Except.error { cls := "Exception", msg := "No csv is found for csv" } := by
  refine ⟨by decide, by decide⟩

/-- C2 (amended): a descriptor whose tags argument is unset (`None`) has
effective tag set exactly its pluginType and, once indexed in a fresh
manager, is resolvable under precisely the keys lowering to its pluginType;
a descriptor with an explicitly empty tag sequence has an empty effective
tag set and indexing it is a no-op, so it is resolvable under no tag. -/
theorem C2_default_tag (loader : String → Handle) (descs : List PluginInfo) (i : Nat)
    (pn key : String) (info : PluginInfo) (hdi : descs.getD i dummyInfo = info) :
    (info.tags0 = none → PluginInfo.tags info = [info.plugin_type]) ∧
    (info.tags0 = some [] → PluginInfo.tags info = [] ∧
      ∀ m : Manager, load_me_later m descs i = m) ∧
    (info.tags0 = none →
      (load_me_later { plugin_name := pn, registry := [] } descs i).registry =
        [(toLowerStr info.plugin_type, [i])]) ∧
    (info.tags0 = none → toLowerStr key = toLowerStr info.plugin_type →
      (load_me_now loader (load_me_later { plugin_name := pn, registry := [] } descs i)
        descs key none).result = Except.ok (resolvedOf loader descs i)) ∧
    (info.tags0 = none → toLowerStr key ≠ toLowerStr info.plugin_type →
      (load_me_now loader (load_me_later { plugin_name := pn, registry := [] } descs i)
        descs key none).result =
        Except.error { cls := "Exception", msg := "No " ++ pn ++ " is found for " ++ key }) := by
  refine ⟨?_, ?_, ?_, ?_, ?_⟩
  · intro h
    unfold PluginInfo.tags
    rw [h]
  · intro h
    have ht : PluginInfo.tags info = [] := by
      unfold PluginInfo.tags
      rw [h]
    refine ⟨ht, ?_⟩
    intro m
    unfold load_me_later
    rw [hdi, ht]
    rfl
  · intro h
    have ht : PluginInfo.tags info = [info.plugin_type] := by
      unfold PluginInfo.tags
      rw [h]
    unfold load_me_later
    rw [hdi, ht]
    rfl
  · intro h hkey
    have ht : PluginInfo.tags info = [info.plugin_type] := by
      unfold PluginInfo.tags
      rw [h]
    have hm : (load_me_later { plugin_name := pn, registry := [] } descs i).registry =
        [(toLowerStr info.plugin_type, [i])] := by
      unfold load_me_later
      rw [hdi, ht]
      rfl
    have hlook : assocLookup
        (load_me_later { plugin_name := pn, registry := [] } descs i).registry
        (toLowerStr key) = some [i] := by
      rw [hm, hkey]
      simp [assocLookup]
    rw [load_me_now_registered loader _ descs key none [i] hlook,
      loop_first_none loader i [] descs 0]
  · intro h hkey
    have ht : PluginInfo.tags info = [info.plugin_type] := by
      unfold PluginInfo.tags
      rw [h]
    have hm : (load_me_later { plugin_name := pn, registry := [] } descs i).registry =
        [(toLowerStr info.plugin_type, [i])] := by
      unfold load_me_later
      rw [hdi, ht]
      rfl
    have hne : ¬(toLowerStr info.plugin_type = toLowerStr key) := fun hc => hkey hc.symm
    have hlook : assocLookup
        (load_me_later { plugin_name := pn, registry := [] } descs i).registry
        (toLowerStr key) = none := by
      rw [hm]
      simp [assocLookup, hne]
    rw [load_me_now_unregistered loader _ descs key none hlook]
    rfl

/-- Witness for the amended C2 on a concrete default-tag descriptor. -/
theorem C2_witness :
    (load_me_later { plugin_name := "csv", registry := [] } descsD 0).registry =
      [("csv", [0])] ∧
    (load_me_now loader0 (load_me_later { plugin_name := "csv", registry := [] } descsD 0)
      descsD "CSV" none).result = Except.ok (resolvedOf loader0 descsD 0) ∧
    (load_me_now loader0 (load_me_later { plugin_name := "csv", registry := [] } descsD 0)
      descsD "xml" none).result =
      Except.error { cls := "Exception", msg := "No csv is found for xml" } := by
  refine ⟨?_, ?_, ?_⟩
  · exact ((C2_default_tag loader0 descsD 0 "csv" "CSV" dDefaultTag (by decide)).2.2.1
      rfl).trans (by decide)
  · exact (C2_default_tag loader0 descsD 0 "csv" "CSV" dDefaultTag
      (by decide)).2.2.2.1 rfl (by decide)
  · exact (C2_default_tag loader0 descsD 0 "csv" "xml" dDefaultTag
      (by decide)).2.2.2.2 rfl (by decide)

/-- C8: creating a manager for plugin type P stores it in the directory's
manager map; every descriptor pending for P is fed to `load_me_later` in
original enqueue order (so the registry under each tag is exactly the FIFO
drain of the pending queue), after which the pending entry for P is
deleted; and a descriptor declared after creation is appended behind the
drained ones in its tag's list. -/
theorem C8_manager_creation_drains (dir : Directory) (descs : List PluginInfo)
    (pt : String) (ids : List Nat)
    (hc : assocLookup dir.CACHED_PLUGIN_INFO pt = some ids) :
    assocLookup (PluginManager_init dir descs pt).1.PLUG_IN_MANAGERS pt =
      some (PluginManager_init dir descs pt).2 ∧
    (∀ t, assocLookup (PluginManager_init dir descs pt).2.registry t =
      lookupAfter none (drainSpec descs ids t)) ∧
    assocLookup (PluginManager_init dir descs pt).1.CACHED_PLUGIN_INFO pt = none ∧
    (∀ descs2 j, (descs2.getD j dummyInfo).plugin_type = pt →
      assocLookup (_load_me_later (PluginManager_init dir descs pt).1 descs2 j).PLUG_IN_MANAGERS
          pt = some (load_me_later (PluginManager_init dir descs pt).2 descs2 j) ∧
      ∀ t, assocLookup (load_me_later (PluginManager_init dir descs pt).2 descs2 j).registry t =
        lookupAfter (assocLookup (PluginManager_init dir descs pt).2.registry t)
          (List.replicate (tagCount (descs2.getD j dummyInfo) t) j)) := by
  have hinit : PluginManager_init dir descs pt =
      ({ PLUG_IN_MANAGERS := assocSet dir.PLUG_IN_MANAGERS pt
            (ids.foldl (fun m i => load_me_later m descs i)
              { plugin_name := pt, registry := [] }),
         CACHED_PLUGIN_INFO := assocErase dir.CACHED_PLUGIN_INFO pt },
       ids.foldl (fun m i => load_me_later m descs i)
         { plugin_name := pt, registry := [] }) := by
    unfold PluginManager_init _register_class
    rw [hc]
  refine ⟨?_, ?_, ?_, ?_⟩
  · simp only [hinit]
    rw [assocLookup_assocSet]
    simp
  · intro t
    simp only [hinit]
    rw [drain_lookup descs ids _ t]
    rfl
  · simp only [hinit]
    exact assocLookup_assocErase_self dir.CACHED_PLUGIN_INFO pt
  · intro descs2 j hj
    constructor
    · simp only [hinit, _load_me_later, hj, assocLookup_assocSet, beq_self_eq_true, if_true]
    · intro t
      simp only [hinit]
      exact load_me_later_lookup _ descs2 j t

/-- Witness for C8 on the concrete directory: two pending `writer`
descriptors drain in FIFO order, the pending entry disappears, and a
post-creation descriptor is appended after them. -/
theorem C8_witness :
    assocLookup (PluginManager_init dir0 descsW "writer").1.PLUG_IN_MANAGERS "writer" =
      some (PluginManager_init dir0 descsW "writer").2 ∧
    assocLookup (PluginManager_init dir0 descsW "writer").2.registry "writer" = some [0, 1] ∧
    assocLookup (PluginManager_init dir0 descsW "writer").1.CACHED_PLUGIN_INFO "writer" =
      none ∧
    assocLookup (load_me_later (PluginManager_init dir0 descsW "writer").2 descsW 2).registry
      "writer" = some [0, 1, 2] := by
  have h := C8_manager_creation_drains dir0 descsW "writer" [0, 1] (by decide)
  have h21 : assocLookup (PluginManager_init dir0 descsW "writer").2.registry "writer" =
      some [0, 1] := by
    rw [h.2.1 "writer"]
    decide
  refine ⟨h.1, h21, h.2.2.1, ?_⟩
  have hd := (h.2.2.2 descsW 2 (by decide)).2 "writer"
  rw [hd, h21]
  decide
